import Mathlib

/-!
Shallow embedding of the RecentRepos activity pipeline (Go sources
`github.go` and the main server file) together with proofs about the
claims of its specification.

Modelling conventions:
* `time.Time` values are modelled as `Nat` — seconds since the Unix epoch
  (UTC).  Go's `Format("2006-01-02")` produces one string per UTC day, so
  the formatted date is modelled by the injective day number `t / 86400`.
  `AddDate(0, 0, -k)` (pure day arithmetic in UTC) is `t - k*86400`.
  The six-month cutoff `time.Now().AddDate(0, -6, 0)` involves calendar
  month arithmetic performed by the Go standard library (outside this
  repository); it is threaded through as an explicit `sixMonthsAgo`
  parameter.
* The network is modelled by an `Upstream` record of response functions:
  for each paginated endpoint a function from page number to an HTTP
  response (status code plus decoded JSON body).  The `since`/`per_page`
  query parameters sent by the client are honoured (or not) by the server
  function chosen in each theorem.
* The unbounded `for { ... page++ }` loops of the Go client are embedded
  as structurally recursive functions on an explicit `fuel` argument;
  `none` marks fuel exhaustion, an artefact that theorems discharge by
  supplying enough fuel.
* The SQLite store is a pair of row lists.  `INSERT OR IGNORE` with the
  unique index `idx_unique_activity(date, repository, activity_type,
  github_id)` is an insert-if-key-absent.  `INSERT OR REPLACE INTO
  pr_comments` names no column of any uniqueness constraint except the
  never-supplied autoincrement primary key `id`, so in SQLite it can
  never hit a conflict and always appends a fresh row.
-/

namespace RecentRepos

/-- One upstream repository (Go `GitHubRepo`). -/
structure GitHubRepo where
  name : String
  fullName : String
  url : String
  htmlURL : String
deriving DecidableEq

/-- Commit author data (Go `GitHubCommitAuthor`). -/
structure GitHubCommitAuthor where
  name : String
  date : Nat
deriving DecidableEq

/-- Commit payload (Go `GitHubCommitData`). -/
structure GitHubCommitData where
  message : String
  author : GitHubCommitAuthor
deriving DecidableEq

/-- One upstream commit item (Go `GitHubCommit`); `url` is the `html_url`. -/
structure GitHubCommit where
  sha : String
  commit : GitHubCommitData
  url : String
deriving DecidableEq

/-- Upstream user (Go `GitHubUser`). -/
structure GitHubUser where
  login : String
deriving DecidableEq

/-- One pull request (Go `GitHubPullRequest`). -/
structure GitHubPullRequest where
  number : Nat
  title : String
  user : GitHubUser
  html_url : String
  created_at : Nat
  updated_at : Nat
deriving DecidableEq

/-- One PR conversation comment (Go `GitHubIssueComment`). -/
structure GitHubIssueComment where
  id : Nat
  user : GitHubUser
  body : String
  created_at : Nat
  html_url : String
deriving DecidableEq

/-- The parts of a generic event's dynamic JSON payload that
`convertEventsToActivity` inspects: an optional `pull_request` or `issue`
object carrying an optional `number` and optional `html_url`. -/
structure PayloadObject where
  number : Option Nat
  html_url : Option String
deriving DecidableEq

/-- Dynamic payload of a generic event (Go `Payload map[string]interface{}`),
restricted to the keys the normalizer reads. -/
structure EventPayload where
  pull_request : Option PayloadObject
  issue : Option PayloadObject
deriving DecidableEq

/-- One generic upstream event (Go `GitHubEvent`). -/
structure GitHubEvent where
  id : String
  type : String
  repo : GitHubRepo
  created_at : Nat
  payload : EventPayload
deriving DecidableEq

/-- The uniform activity record (Go `GitHubActivity`); the db-assigned
`ID` field is never set by the pipeline and is omitted. -/
structure GitHubActivity where
  date : Nat
  repository : String
  activityType : String
  count : Nat
  url : String
  githubID : String
deriving DecidableEq

/-- One pull-request comment in uniform shape (Go `PRComment`); the
db-assigned `ID` field is omitted. -/
structure PRComment where
  repository : String
  prNumber : Nat
  prTitle : String
  author : String
  body : String
  createdAt : Nat
  prURL : String
  commentURL : String
deriving DecidableEq

/-- Day number of an instant: the model of `Format("2006-01-02")`. -/
def formatDate (t : Nat) : Nat := t / 86400

/-- Classification of upstream event kinds (Go `getActivityType`, a
switch, i.e. a first-match chain of equality tests). -/
def getActivityType (eventType : String) : String :=
  if eventType = "PushEvent" then "commit"
  else if eventType = "PullRequestEvent" then "pull_request"
  else if eventType = "IssuesEvent" then "issue"
  else if eventType = "PullRequestReviewEvent" then "review"
  else if eventType = "CreateEvent" ∨ eventType = "DeleteEvent" then "repository"
  else if eventType = "ForkEvent" then "fork"
  else if eventType = "WatchEvent" then "star"
  else "activity"

/-- Per-event body of the loop in Go `convertEventsToActivity`: `none`
exactly when the event is skipped (`continue` on `PushEvent`), otherwise
the single record appended for the event. -/
def eventActivity (event : GitHubEvent) : Option GitHubActivity :=
  if event.type = "PushEvent" then
    -- Skip push events as individual commits are tracked separately
    none
  else
    let activityType := getActivityType event.type
    let defaultID := event.id
    let defaultURL := "https://github.com/" ++ event.repo.name
    let idURL : String × String :=
      if event.type = "PullRequestEvent" then
        match event.payload.pull_request with
        | some pr =>
          match pr.number with
          | some n => ("pr-" ++ toString n, pr.html_url.getD defaultURL)
          | none => (defaultID, defaultURL)
        | none => (defaultID, defaultURL)
      else if event.type = "IssuesEvent" then
        match event.payload.issue with
        | some issue =>
          match issue.number with
          | some n => ("issue-" ++ toString n, issue.html_url.getD defaultURL)
          | none => (defaultID, defaultURL)
        | none => (defaultID, defaultURL)
      else (defaultID, defaultURL)
    some { date := event.created_at
         , repository := event.repo.name
         , activityType := activityType
         , count := 1
         , url := idURL.2
         , githubID := idURL.1 }

/-- Go `convertEventsToActivity`: one record per non-push event, in order. -/
def convertEventsToActivity (events : List GitHubEvent) : List GitHubActivity :=
  events.filterMap eventActivity

/-- Go `convertCommitsToActivity`: one record per commit, count 1,
keyed by the commit hash. -/
def convertCommitsToActivity (commits : List GitHubCommit)
    (repoName username : String) : List GitHubActivity :=
  commits.map (fun commit =>
    { date := commit.commit.author.date
    , repository := username ++ "/" ++ repoName
    , activityType := "commit"
    , count := 1
    , url := commit.url
    , githubID := commit.sha })

/-- The fixed sample activity dataset (Go `getSampleData`); `now` is the
value of `time.Now()` at the invocation. -/
def getSampleData (now : Nat) : List GitHubActivity :=
  [ { date := now - 1*86400, repository := "kristofer/RecentRepos"
    , activityType := "commit", count := 1
    , url := "https://github.com/kristofer/RecentRepos/commit/abc123"
    , githubID := "abc123" }
  , { date := now - 1*86400, repository := "kristofer/RecentRepos"
    , activityType := "commit", count := 1
    , url := "https://github.com/kristofer/RecentRepos/commit/def456"
    , githubID := "def456" }
  , { date := now - 1*86400, repository := "kristofer/RecentRepos"
    , activityType := "commit", count := 1
    , url := "https://github.com/kristofer/RecentRepos/commit/ghi789"
    , githubID := "ghi789" }
  , { date := now - 2*86400, repository := "kristofer/example-project"
    , activityType := "pull_request", count := 1
    , url := "https://github.com/kristofer/example-project/pull/42"
    , githubID := "pr-42" }
  , { date := now - 3*86400, repository := "kristofer/another-repo"
    , activityType := "commit", count := 1
    , url := "https://github.com/kristofer/another-repo/commit/jkl012"
    , githubID := "jkl012" }
  , { date := now - 3*86400, repository := "kristofer/another-repo"
    , activityType := "commit", count := 1
    , url := "https://github.com/kristofer/another-repo/commit/mno345"
    , githubID := "mno345" }
  , { date := now - 5*86400, repository := "kristofer/web-app"
    , activityType := "issue", count := 1
    , url := "https://github.com/kristofer/web-app/issues/15"
    , githubID := "issue-15" }
  , { date := now - 5*86400, repository := "kristofer/web-app"
    , activityType := "issue", count := 1
    , url := "https://github.com/kristofer/web-app/issues/16"
    , githubID := "issue-16" }
  , { date := now - 7*86400, repository := "kristofer/RecentRepos"
    , activityType := "review", count := 1
    , url := "https://github.com/kristofer/RecentRepos"
    , githubID := "review-1" }
  , { date := now - 10*86400, repository := "kristofer/mobile-app"
    , activityType := "commit", count := 1
    , url := "https://github.com/kristofer/mobile-app/commit/pqr678"
    , githubID := "pqr678" } ]

/-- The fixed sample PR-comment dataset (Go `getSamplePRComments`). -/
def getSamplePRComments (now : Nat) : List PRComment :=
  [ { repository := "kristofer/RecentRepos", prNumber := 1
    , prTitle := "Add initial timeline feature", author := "kristofer"
    , body := "This looks great! The timeline view is very clean and easy to read."
    , createdAt := now - 1*86400
    , prURL := "https://github.com/kristofer/RecentRepos/pull/1"
    , commentURL := "https://github.com/kristofer/RecentRepos/pull/1#issuecomment-1" }
  , { repository := "kristofer/RecentRepos", prNumber := 2
    , prTitle := "Improve database schema", author := "copilot"
    , body := "Good optimization! The indexes will help with query performance."
    , createdAt := now - 2*86400
    , prURL := "https://github.com/kristofer/RecentRepos/pull/2"
    , commentURL := "https://github.com/kristofer/RecentRepos/pull/2#issuecomment-2" }
  , { repository := "kristofer/example-project", prNumber := 15
    , prTitle := "Fix authentication bug", author := "kristofer"
    , body := "LGTM! This fixes the issue we were seeing in production."
    , createdAt := now - 3*86400
    , prURL := "https://github.com/kristofer/example-project/pull/15"
    , commentURL := "https://github.com/kristofer/example-project/pull/15#issuecomment-15" }
  , { repository := "kristofer/another-repo", prNumber := 8
    , prTitle := "Update dependencies", author := "dependabot"
    , body := "Bumps version from 1.2.3 to 1.2.4. See release notes for details."
    , createdAt := now - 5*86400
    , prURL := "https://github.com/kristofer/another-repo/pull/8"
    , commentURL := "https://github.com/kristofer/another-repo/pull/8#issuecomment-8" } ]

/-- One HTTP response: status code and decoded JSON body. -/
structure HttpResp (α : Type) where
  status : Nat
  body : List α
deriving DecidableEq

/-- The upstream API, as response functions per endpoint.  Paginated
endpoints map a page number to a response; `commitPages`, `prPages` and
`commentPages` are additionally keyed by the repository name (and PR
number) appearing in the request URL. -/
structure Upstream where
  repoPages : Nat → HttpResp GitHubRepo
  commitPages : String → Nat → HttpResp GitHubCommit
  eventsResp : HttpResp GitHubEvent
  prPages : String → Nat → HttpResp GitHubPullRequest
  commentPages : String → Nat → Nat → HttpResp GitHubIssueComment

/-- A well-behaved server over a fixed collection `L`: page `p` of size
`perPage`, always status 200. -/
def pagesOf (perPage : Nat) (L : List α) (page : Nat) : HttpResp α :=
  ⟨200, (L.drop ((page - 1) * perPage)).take perPage⟩

/-- The `for { ... page++ }` loop of Go `fetchUserRepos` (per_page=100):
abort on a non-200 status, stop on an empty page, stop after a short
page, otherwise continue with the next page. -/
def fetchUserReposLoop (pages : Nat → HttpResp GitHubRepo) :
    Nat → Nat → List GitHubRepo → Option (Except String (List GitHubRepo))
  | 0, _, _ => none
  | fuel + 1, page, allRepos =>
    let resp := pages page
    if resp.status ≠ 200 then
      some (.error ("GitHub API returned status: " ++ toString resp.status))
    else if resp.body.isEmpty then some (.ok allRepos)
    else if resp.body.length < 100 then some (.ok (allRepos ++ resp.body))
    else fetchUserReposLoop pages fuel (page + 1) (allRepos ++ resp.body)

/-- Go `fetchUserRepos` (the `username` appears only in the request URL,
which the `pages` function embodies). -/
def fetchUserRepos (pages : Nat → HttpResp GitHubRepo) (fuel : Nat) :
    Option (Except String (List GitHubRepo)) :=
  fetchUserReposLoop pages fuel 1 []

/-- The loop of Go `fetchRepoCommits` (per_page=100): a 409 status means
the repository is empty and the whole fetch returns no commits at all;
any other non-200 status aborts with an error naming the repository. -/
def fetchRepoCommitsLoop (repoName : String)
    (pages : Nat → HttpResp GitHubCommit) :
    Nat → Nat → List GitHubCommit → Option (Except String (List GitHubCommit))
  | 0, _, _ => none
  | fuel + 1, page, allCommits =>
    let resp := pages page
    if resp.status = 409 then some (.ok [])
    else if resp.status ≠ 200 then
      some (.error ("GitHub API returned status: " ++ toString resp.status ++
        " for repo " ++ repoName))
    else if resp.body.isEmpty then some (.ok allCommits)
    else if resp.body.length < 100 then some (.ok (allCommits ++ resp.body))
    else fetchRepoCommitsLoop repoName pages fuel (page + 1) (allCommits ++ resp.body)

/-- Go `fetchRepoCommits`: run the page loop, then convert the collected
commits (the `since` cutoff is a query parameter handled by the server). -/
def fetchRepoCommits (username repoName : String)
    (pages : Nat → HttpResp GitHubCommit) (fuel : Nat) :
    Option (Except String (List GitHubActivity)) :=
  (fetchRepoCommitsLoop repoName pages fuel 1 []).map
    (fun r => r.map (fun commits => convertCommitsToActivity commits repoName username))

/-- Go `fetchRecentEvents`: one request (no pagination), then a
client-side filter to events strictly after the six-month cutoff. -/
def fetchRecentEvents (resp : HttpResp GitHubEvent) (sixMonthsAgo : Nat) :
    Except String (List GitHubEvent) :=
  if resp.status ≠ 200 then
    .error ("GitHub API returned status: " ++ toString resp.status)
  else
    .ok (resp.body.filter (fun event => sixMonthsAgo < event.created_at))

/-- The per-repository loop inside Go `FetchUserActivity`: a failed
commit fetch for one repository is logged and skipped, the others are
appended in order. -/
def collectRepoCommits (username : String) (up : Upstream) (fuel : Nat) :
    List GitHubRepo → List GitHubActivity → Option (List GitHubActivity)
  | [], allActivities => some allActivities
  | repo :: rest, allActivities =>
    match fetchRepoCommits username repo.name (up.commitPages repo.name) fuel with
    | none => none
    | some (.error _) => collectRepoCommits username up fuel rest allActivities
    | some (.ok commits) => collectRepoCommits username up fuel rest (allActivities ++ commits)

/-- Go `FetchUserActivity`: sample data when no token is configured;
otherwise list repositories (failure aborts), fetch commits per
repository (failure skips that repository), then append event-derived
records when the events fetch succeeds (its failure is ignored). -/
def FetchUserActivity (token username : String) (now sixMonthsAgo : Nat)
    (up : Upstream) (fuel : Nat) : Option (Except String (List GitHubActivity)) :=
  if token = "" then some (.ok (getSampleData now))
  else
    match fetchUserRepos up.repoPages fuel with
    | none => none
    | some (.error e) => some (.error ("failed to fetch user repos: " ++ e))
    | some (.ok repos) =>
      match collectRepoCommits username up fuel repos [] with
      | none => none
      | some allActivities =>
        match fetchRecentEvents up.eventsResp sixMonthsAgo with
        | .ok events => some (.ok (allActivities ++ convertEventsToActivity events))
        | .error _ => some (.ok allActivities)

/-- Go `fetchRepoPullRequests`: a single request (per_page=10, no page
loop); any non-200 status yields an empty result, not an error. -/
def fetchRepoPullRequests (pages : Nat → HttpResp GitHubPullRequest) :
    Except String (List GitHubPullRequest) :=
  let resp := pages 1
  if resp.status ≠ 200 then .ok []
  else .ok resp.body

/-- Go `fetchPRIssueComments`: a single request (per_page=5, no page
loop); any non-200 status yields an empty result, not an error. -/
def fetchPRIssueComments (pages : Nat → HttpResp GitHubIssueComment) :
    Except String (List GitHubIssueComment) :=
  let resp := pages 1
  if resp.status ≠ 200 then .ok []
  else .ok resp.body

/-- The per-PR part of Go `FetchPRComments` for one repository: at most
the first 5 PRs, skipping PRs last updated before the cutoff; a failed
comment fetch is logged and skipped; comments strictly after the cutoff
become `PRComment`s. -/
def collectPRCommentsForRepo (username repoName : String) (sixMonthsAgo : Nat)
    (up : Upstream) (prs : List GitHubPullRequest) : List PRComment :=
  let prLimit := min prs.length 5
  (prs.take prLimit).foldl (fun allComments pr =>
    if pr.updated_at < sixMonthsAgo then allComments
    else
      match fetchPRIssueComments (up.commentPages repoName pr.number) with
      | .error _ => allComments
      | .ok issueComments =>
        allComments ++ (issueComments.filter
            (fun comment => sixMonthsAgo < comment.created_at)).map
          (fun comment =>
            { repository := username ++ "/" ++ repoName
            , prNumber := pr.number
            , prTitle := pr.title
            , author := comment.user.login
            , body := comment.body
            , createdAt := comment.created_at
            , prURL := pr.html_url
            , commentURL := comment.html_url })) []

/-- Go `FetchPRComments`: sample data when no token is configured;
otherwise list repositories (failure aborts), then per repository fetch
recent PRs (failure skips the repository) and their comments. -/
def FetchPRComments (token username : String) (now sixMonthsAgo : Nat)
    (up : Upstream) (fuel : Nat) : Option (Except String (List PRComment)) :=
  if token = "" then some (.ok (getSamplePRComments now))
  else
    match fetchUserRepos up.repoPages fuel with
    | none => none
    | some (.error e) => some (.error ("failed to fetch user repos: " ++ e))
    | some (.ok repos) =>
      some (.ok (repos.foldl (fun allComments repo =>
        match fetchRepoPullRequests (up.prPages repo.name) with
        | .error _ => allComments
        | .ok prs =>
          allComments ++ collectPRCommentsForRepo username repo.name sixMonthsAgo up prs) []))

/-- One row of the `github_activity` table; the autoincrement `id` and
`created_at` defaults play no role in the pipeline and are omitted. -/
structure ActivityRow where
  date : Nat
  repository : String
  activity_type : String
  count : Nat
  url : String
  github_id : String
deriving DecidableEq

/-- One row of the `pr_comments` table; `id` is the autoincrement
primary key, the table's only uniqueness constraint. -/
structure PRCommentRow where
  id : Nat
  repository : String
  pr_number : Nat
  pr_title : String
  author : String
  body : String
  created_at : Nat
  pr_url : String
  comment_url : String
deriving DecidableEq

/-- The SQLite store created by `initDB`. -/
structure DB where
  github_activity : List ActivityRow
  pr_comments : List PRCommentRow
deriving DecidableEq

def emptyDB : DB := ⟨[], []⟩

/-- The natural key covered by the unique index `idx_unique_activity`. -/
def activityKey (r : ActivityRow) : Nat × String × String × String :=
  (r.date, r.repository, r.activity_type, r.github_id)

/-- The row the refresh inserts for one activity: the date is stored in
`Format("2006-01-02")` (day) granularity. -/
def activityRowOf (a : GitHubActivity) : ActivityRow :=
  ⟨formatDate a.date, a.repository, a.activityType, a.count, a.url, a.githubID⟩

/-- Whether some row with natural key `k` is present. -/
def keyPresent (rows : List ActivityRow) (k : Nat × String × String × String) : Bool :=
  rows.any (fun r => activityKey r = k)

/-- One `INSERT OR IGNORE INTO github_activity`: a no-op when a row with
the same natural key exists, otherwise an append. -/
def insertOrIgnoreActivity (rows : List ActivityRow) (a : GitHubActivity) :
    List ActivityRow :=
  let row := activityRowOf a
  if keyPresent rows (activityKey row) then rows else rows ++ [row]

/-- Next value of the autoincrement primary key of `pr_comments`. -/
def nextPRCommentId (rows : List PRCommentRow) : Nat :=
  (rows.map (fun r => r.id)).foldl max 0 + 1

/-- One `INSERT OR REPLACE INTO pr_comments (repository, pr_number, ...)`:
the statement does not supply the `id` primary key — the table's only
uniqueness constraint — so no conflict can arise and SQLite always
appends a fresh row (`created_at` is stored in RFC3339, i.e. full-second,
granularity). -/
def insertOrReplacePRComment (rows : List PRCommentRow) (c : PRComment) :
    List PRCommentRow :=
  rows ++ [⟨nextPRCommentId rows, c.repository, c.prNumber, c.prTitle, c.author,
    c.body, c.createdAt, c.prURL, c.commentURL⟩]

/-- The purge `DELETE FROM pr_comments WHERE created_at < date('now','-180 days')`:
the stored RFC3339 string compares lexicographically below the
`YYYY-MM-DD` threshold exactly when its day precedes the threshold day. -/
def purgeOldPRComments (now : Nat) (rows : List PRCommentRow) : List PRCommentRow :=
  rows.filter (fun r => ¬ (formatDate r.created_at < now / 86400 - 180))

/-- The refresh pipeline, Go `App.fetchGitHubActivity`: fetch activity
(failure aborts), insert-or-ignore every record; then fetch PR comments —
on failure just log and keep the stored comments, on success purge
comments older than 180 days and insert the fetched ones. -/
def fetchGitHubActivity (token username : String) (now sixMonthsAgo : Nat)
    (up : Upstream) (fuel : Nat) (db : DB) : Option (Except String DB) :=
  match FetchUserActivity token username now sixMonthsAgo up fuel with
  | none => none
  | some (.error e) => some (.error ("failed to fetch GitHub activity: " ++ e))
  | some (.ok activities) =>
    let db₁ : DB :=
      { db with github_activity := activities.foldl insertOrIgnoreActivity db.github_activity }
    match FetchPRComments token username now sixMonthsAgo up fuel with
    | none => none
    | some (.error _) => some (.ok db₁)
    | some (.ok prComments) =>
      some (.ok { db₁ with pr_comments :=
        (prComments.foldl insertOrReplacePRComment
          (purgeOldPRComments now db₁.pr_comments)) })

/-- One repository group of the commit view (the local `RepoGroup` of
`getCommitsHandler`). -/
structure RepoGroup where
  repository : String
  commits : List GitHubActivity
  latestDate : Nat
deriving DecidableEq

/-- The pagination metadata map of the `/api/commits` response. -/
structure PaginationMeta where
  page : Nat
  limit : Nat
  total : Nat
  total_pages : Nat
  has_next : Bool
  has_prev : Bool
deriving DecidableEq

/-- The paginated commit-group response. -/
structure CommitsPage where
  data : List RepoGroup
  pagination : PaginationMeta
deriving DecidableEq

/-- The pagination step of Go `getCommitsHandler` (lines computing
`start`/`end`, the slice `allRepoGroups[start:end]` and the metadata),
applied to the ordered list of repository groups. -/
def getCommitsPagination (allRepoGroups : List RepoGroup) (page limit : Nat) :
    CommitsPage :=
  let start := (page - 1) * limit
  let stop := start + limit
  let start := if start > allRepoGroups.length then allRepoGroups.length else start
  let stop := if stop > allRepoGroups.length then allRepoGroups.length else stop
  { data := (allRepoGroups.take stop).drop start
  , pagination :=
    { page := page
    , limit := limit
    , total := allRepoGroups.length
    , total_pages := (allRepoGroups.length + limit - 1) / limit
    , has_next := stop < allRepoGroups.length
    , has_prev := page > 1 } }

/-- The event kinds recognized by `getActivityType`. -/
def recognizedEventKinds : List String :=
  ["PushEvent", "PullRequestEvent", "IssuesEvent", "PullRequestReviewEvent",
   "CreateEvent", "DeleteEvent", "ForkEvent", "WatchEvent"]

/-- The fixed `activityType` enumeration of the spec. -/
def activityTypeEnum : List String :=
  ["commit", "pull_request", "issue", "review", "repository", "fork", "star", "activity"]

/-- Decidable equality of fetch results, so that closed statements about
them can be settled by evaluation. -/
instance {ε α : Type} [DecidableEq ε] [DecidableEq α] : DecidableEq (Except ε α) :=
  fun a b =>
    match a, b with
    | .error e, .error f =>
      if h : e = f then .isTrue (by rw [h]) else .isFalse (by simp [h])
    | .ok x, .ok y =>
      if h : x = y then .isTrue (by rw [h]) else .isFalse (by simp [h])
    | .error _, .ok _ => .isFalse (by simp)
    | .ok _, .error _ => .isFalse (by simp)

/-- Extract the store from a successful refresh result (defaulting to the
empty store), used to phrase closed witness statements. -/
def getOkDB : Option (Except String DB) → DB
  | some (.ok db) => db
  | _ => emptyDB

/-- An upstream on which every request fails; used for credential-less
(sample mode) statements, where no request is ever issued. -/
def noUpstream : Upstream :=
  ⟨fun _ => ⟨404, []⟩, fun _ _ => ⟨404, []⟩, ⟨404, []⟩,
   fun _ _ => ⟨404, []⟩, fun _ _ _ => ⟨404, []⟩⟩

/-- A three-repository upstream: repositories `r1` and `r3` serve the
commit collections `C1` and `C3` over well-behaved pages, while every
commit request for `r2` answers with status `st2`; the events, PR and
comment endpoints all fail. -/
def scenarioUpstream (r1 r2 r3 : GitHubRepo) (C1 C3 : List GitHubCommit)
    (st2 : Nat) : Upstream :=
  { repoPages := pagesOf 100 [r1, r2, r3]
  , commitPages := fun repoName =>
      if repoName = r1.name then pagesOf 100 C1
      else if repoName = r2.name then (fun _ => ⟨st2, []⟩)
      else pagesOf 100 C3
  , eventsResp := ⟨404, []⟩
  , prPages := fun _ _ => ⟨404, []⟩
  , commentPages := fun _ _ _ => ⟨404, []⟩ }

/-- Witness fixture: repository `alpha`. -/
def wRepoA : GitHubRepo := ⟨"alpha", "u/alpha", "", ""⟩

/-- Witness fixture: repository `beta`. -/
def wRepoB : GitHubRepo := ⟨"beta", "u/beta", "", ""⟩

/-- Witness fixture: repository `gamma`. -/
def wRepoC : GitHubRepo := ⟨"gamma", "u/gamma", "", ""⟩

/-- Witness fixture: a commit in repository `alpha`. -/
def wCommitA : GitHubCommit := ⟨"sha-a", ⟨"msg a", ⟨"u", 86400 * 100⟩⟩, "urlA"⟩

/-- Witness fixture: a commit in repository `gamma`. -/
def wCommitC : GitHubCommit := ⟨"sha-c", ⟨"msg c", ⟨"u", 86400 * 101⟩⟩, "urlC"⟩

/-- Witness fixture: an upstream with one repository holding one commit
whose recent-events endpoint fails. -/
def c10Upstream : Upstream :=
  ⟨pagesOf 100 [wRepoA], fun _ => pagesOf 100 [wCommitA], ⟨500, []⟩,
   fun _ _ => ⟨404, []⟩, fun _ _ _ => ⟨404, []⟩⟩

/-- A collection of 13 distinct pull requests, more than one page of the
10 requested per page by the pull-request listing. -/
def c6PRs : List GitHubPullRequest :=
  (List.range 13).map (fun i => ⟨i + 1, "pr", ⟨"u"⟩, "", 0, 0⟩)

/-- An upstream whose single repository has one recent pull request with
one recent conversation comment and no commits; upstream state that is
identical across refreshes. -/
def c2Upstream : Upstream :=
  { repoPages := pagesOf 100 [⟨"RecentRepos", "kristofer/RecentRepos", "", ""⟩]
  , commitPages := fun _ _ => ⟨200, []⟩
  , eventsResp := ⟨404, []⟩
  , prPages := fun _ _ =>
      ⟨200, [⟨1, "Add initial timeline feature", ⟨"kristofer"⟩,
        "https://github.com/kristofer/RecentRepos/pull/1", 86400 * 364, 86400 * 364⟩]⟩
  , commentPages := fun _ _ _ =>
      ⟨200, [⟨11, ⟨"copilot"⟩, "This looks great!", 86400 * 364,
        "https://github.com/kristofer/RecentRepos/pull/1#issuecomment-11"⟩]⟩ }

/-- Witness fixture: the repository group named `n` with latest date `n`. -/
def wGroup (n : Nat) : RepoGroup := ⟨"r" ++ toString n, [], n⟩

/-- Witness fixture: an upstream event of an unrecognized kind. -/
def wEvent : GitHubEvent :=
  ⟨"9", "SponsorshipEvent", ⟨"kristofer/RecentRepos", "", "", ""⟩, 5, ⟨none, none⟩⟩

/-! ## Helper lemmas about the insert-if-absent store -/

theorem keyPresent_append_left {rows : List ActivityRow} (rows₂ : List ActivityRow)
    {k : Nat × String × String × String} (h : keyPresent rows k = true) :
    keyPresent (rows ++ rows₂) k = true := by
  simp only [keyPresent, List.any_append, Bool.or_eq_true]
  exact Or.inl h

theorem insertOrIgnoreActivity_present {rows : List ActivityRow} (a : GitHubActivity)
    {k : Nat × String × String × String} (h : keyPresent rows k = true) :
    keyPresent (insertOrIgnoreActivity rows a) k = true := by
  by_cases hp : keyPresent rows (activityKey (activityRowOf a)) = true
  · simpa [insertOrIgnoreActivity, hp] using h
  · simp only [insertOrIgnoreActivity, hp, if_false]
    exact keyPresent_append_left _ h

theorem insertOrIgnoreActivity_self (rows : List ActivityRow) (a : GitHubActivity) :
    keyPresent (insertOrIgnoreActivity rows a) (activityKey (activityRowOf a)) = true := by
  by_cases hp : keyPresent rows (activityKey (activityRowOf a)) = true
  · simp [insertOrIgnoreActivity, hp]
  · simp only [insertOrIgnoreActivity, hp, if_false]
    simp [keyPresent, List.any_append]

theorem foldl_insert_mono (acts : List GitHubActivity) (rows : List ActivityRow)
    (k : Nat × String × String × String) (h : keyPresent rows k = true) :
    keyPresent (acts.foldl insertOrIgnoreActivity rows) k = true := by
  induction acts generalizing rows with
  | nil => exact h
  | cons b rest ih =>
    exact ih _ (insertOrIgnoreActivity_present b h)

theorem foldl_insert_present (acts : List GitHubActivity) (rows : List ActivityRow)
    (a : GitHubActivity) (ha : a ∈ acts) :
    keyPresent (acts.foldl insertOrIgnoreActivity rows) (activityKey (activityRowOf a)) = true := by
  induction acts generalizing rows with
  | nil => cases ha
  | cons b rest ih =>
    rcases List.mem_cons.mp ha with rfl | hmem
    · exact foldl_insert_mono rest _ _ (insertOrIgnoreActivity_self rows a)
    · exact ih _ hmem

theorem insertOrIgnoreActivity_noop {rows : List ActivityRow} {a : GitHubActivity}
    (h : keyPresent rows (activityKey (activityRowOf a)) = true) :
    insertOrIgnoreActivity rows a = rows := by
  simp [insertOrIgnoreActivity, h]

theorem foldl_insert_noop (acts : List GitHubActivity) (rows : List ActivityRow)
    (h : ∀ a ∈ acts, keyPresent rows (activityKey (activityRowOf a)) = true) :
    acts.foldl insertOrIgnoreActivity rows = rows := by
  induction acts with
  | nil => rfl
  | cons b rest ih =>
    have hb : insertOrIgnoreActivity rows b = rows :=
      insertOrIgnoreActivity_noop (h b (List.mem_cons_self b rest))
    simp only [List.foldl_cons, hb]
    exact ih (fun a ha => h a (List.mem_cons_of_mem b ha))

theorem foldl_insert_idempotent (acts : List GitHubActivity) (rows : List ActivityRow) :
    acts.foldl insertOrIgnoreActivity (acts.foldl insertOrIgnoreActivity rows)
      = acts.foldl insertOrIgnoreActivity rows :=
  foldl_insert_noop acts _ (fun a ha => foldl_insert_present acts rows a ha)

/-! ## C1 — refresh idempotence on the activity store -/

/-- C1: for every upstream dataset, configuration and starting store,
running the refresh pipeline a second time against the unchanged
dataset inserts no new `github_activity` rows — the row count after the
second run equals the count after the first — because every insert is an
insert-if-absent over the natural key (date, repository, activity_type,
github_id). -/
theorem refresh_idempotent_activity_count
    (token username : String) (now sixMonthsAgo fuel : Nat) (up : Upstream)
    (db db₁ db₂ : DB)
    (h₁ : fetchGitHubActivity token username now sixMonthsAgo up fuel db = some (.ok db₁))
    (h₂ : fetchGitHubActivity token username now sixMonthsAgo up fuel db₁ = some (.ok db₂)) :
    db₂.github_activity.length = db₁.github_activity.length := by
  unfold fetchGitHubActivity at h₁ h₂
  cases hA : FetchUserActivity token username now sixMonthsAgo up fuel with
  | none => rw [hA] at h₁; cases h₁
  | some r =>
    cases r with
    | error e => rw [hA] at h₁; simp at h₁
    | ok acts =>
      rw [hA] at h₁ h₂
      have hga₁ : db₁.github_activity = acts.foldl insertOrIgnoreActivity db.github_activity := by
        cases hP : FetchPRComments token username now sixMonthsAgo up fuel with
        | none => rw [hP] at h₁; cases h₁
        | some rP =>
          cases rP with
          | error e =>
            rw [hP] at h₁
            simp only [Option.some.injEq, Except.ok.injEq] at h₁
            rw [← h₁]
          | ok cs =>
            rw [hP] at h₁
            simp only [Option.some.injEq, Except.ok.injEq] at h₁
            rw [← h₁]
      have hga₂ : db₂.github_activity = acts.foldl insertOrIgnoreActivity db₁.github_activity := by
        cases hP : FetchPRComments token username now sixMonthsAgo up fuel with
        | none => rw [hP] at h₂; cases h₂
        | some rP =>
          cases rP with
          | error e =>
            rw [hP] at h₂
            simp only [Option.some.injEq, Except.ok.injEq] at h₂
            rw [← h₂]
          | ok cs =>
            rw [hP] at h₂
            simp only [Option.some.injEq, Except.ok.injEq] at h₂
            rw [← h₂]
      rw [hga₂, hga₁, foldl_insert_idempotent]

/-- Witness for C1: two concrete credential-less refreshes starting from
the empty store; the second leaves the activity row count unchanged. -/
theorem refresh_idempotent_activity_count_witness :
    (getOkDB (fetchGitHubActivity "" "kristofer" (86400 * 400) (86400 * 217) noUpstream 1
      (getOkDB (fetchGitHubActivity "" "kristofer" (86400 * 400) (86400 * 217) noUpstream 1
        emptyDB)))).github_activity.length
    = (getOkDB (fetchGitHubActivity "" "kristofer" (86400 * 400) (86400 * 217) noUpstream 1
        emptyDB)).github_activity.length :=
  refresh_idempotent_activity_count "" "kristofer" (86400 * 400) (86400 * 217) 1 noUpstream
    emptyDB _ _ (by rfl) (by rfl)

/-! ## C3 — commit-group pagination metadata -/

/-- C3: for every stored group count, every effective limit in 1..100 and
every page ≥ 1, the commit-group view reports `total_pages =
ceil(total/limit)`, `has_next = (page*limit < total)`, `has_prev =
(page > 1)`, and a page beyond `total_pages` yields an empty group list
with `has_next = false` (the handler never errors on such a page). -/
theorem commit_group_pagination_metadata
    (allRepoGroups : List RepoGroup) (page limit : Nat)
    (hl : 1 ≤ limit) (hl100 : limit ≤ 100) (hp : 1 ≤ page) :
    (getCommitsPagination allRepoGroups page limit).pagination.total
        = allRepoGroups.length
    ∧ (getCommitsPagination allRepoGroups page limit).pagination.total_pages
        = allRepoGroups.length / limit
          + (if allRepoGroups.length % limit = 0 then 0 else 1)
    ∧ (getCommitsPagination allRepoGroups page limit).pagination.has_next
        = decide (page * limit < allRepoGroups.length)
    ∧ (getCommitsPagination allRepoGroups page limit).pagination.has_prev
        = decide (1 < page)
    ∧ ((getCommitsPagination allRepoGroups page limit).pagination.total_pages < page →
        (getCommitsPagination allRepoGroups page limit).data = []
        ∧ (getCommitsPagination allRepoGroups page limit).pagination.has_next = false) := by
  have hlpos : 0 < limit := hl
  set n := allRepoGroups.length with hn
  -- the unclamped stop index equals page * limit
  have hstop : (page - 1) * limit + limit = page * limit := by
    have h1 : (page - 1) * limit = page * limit - limit := by
      rw [Nat.sub_mul, Nat.one_mul]
    have h2 : limit ≤ page * limit := by
      calc limit = 1 * limit := (Nat.one_mul limit).symm
        _ ≤ page * limit := Nat.mul_le_mul_right limit hp
    omega
  -- the ceiling formula
  have hceil : (n + limit - 1) / limit = n / limit + (if n % limit = 0 then 0 else 1) := by
    have hmod := Nat.div_add_mod n limit
    by_cases h0 : n % limit = 0
    · have hrep : n + limit - 1 = limit * (n / limit) + (limit - 1) := by omega
      rw [hrep, Nat.mul_add_div hlpos,
        Nat.div_eq_of_lt (show limit - 1 < limit by omega), h0]
      simp
    · have hml : limit * (n / limit + 1) = limit * (n / limit) + limit := by ring
      have hmlt := Nat.mod_lt n hlpos
      have hrep : n + limit - 1 = limit * (n / limit + 1) + (n % limit - 1) := by omega
      rw [hrep, Nat.mul_add_div hlpos,
        Nat.div_eq_of_lt (show n % limit - 1 < limit by omega)]
      simp [h0]
  -- claimed total_pages lower bound: total_pages * limit ≥ total
  have htp : n ≤ limit * ((n + limit - 1) / limit) := by
    have hmod := Nat.div_add_mod (n + limit - 1) limit
    have hlt := Nat.mod_lt (n + limit - 1) hlpos
    omega
  refine ⟨rfl, ?_, ?_, rfl, ?_⟩
  · exact hceil
  · show decide
        ((if (page - 1) * limit + limit > n then n else (page - 1) * limit + limit) < n)
        = decide (page * limit < n)
    rw [hstop, decide_eq_decide]
    split <;> omega
  · intro hbig
    have htp' : (getCommitsPagination allRepoGroups page limit).pagination.total_pages
        = (n + limit - 1) / limit := rfl
    rw [htp'] at hbig
    -- the unclamped start index is already ≥ the group count
    have hstart : n ≤ (page - 1) * limit := by
      have h1 : (n + limit - 1) / limit ≤ page - 1 := by omega
      have h2 : limit * ((n + limit - 1) / limit) ≤ limit * (page - 1) :=
        Nat.mul_le_mul_left limit h1
      calc n ≤ limit * ((n + limit - 1) / limit) := htp
        _ ≤ limit * (page - 1) := h2
        _ = (page - 1) * limit := Nat.mul_comm _ _
    constructor
    · show (allRepoGroups.take
          (if (page - 1) * limit + limit > n then n else (page - 1) * limit + limit)).drop
          (if (page - 1) * limit > n then n else (page - 1) * limit) = []
      have hs : (if (page - 1) * limit > n then n else (page - 1) * limit) = n := by
        split <;> omega
      have he : (if (page - 1) * limit + limit > n then n else (page - 1) * limit + limit)
          = n := by
        split <;> omega
      rw [hs, he, hn, List.take_length, List.drop_length]
    · show decide
          ((if (page - 1) * limit + limit > n then n else (page - 1) * limit + limit) < n)
          = false
      have he : (if (page - 1) * limit + limit > n then n else (page - 1) * limit + limit)
          = n := by
        split <;> omega
      rw [he]
      simp

/-- Witness for C3: three stored groups, limit 1, page 5 — beyond the
last page — yields an empty page with `has_next = false`. -/
theorem commit_group_pagination_metadata_witness :
    (getCommitsPagination [wGroup 3, wGroup 2, wGroup 1] 5 1).data = []
    ∧ (getCommitsPagination [wGroup 3, wGroup 2, wGroup 1] 5 1).pagination.has_next
        = false :=
  (commit_group_pagination_metadata [wGroup 3, wGroup 2, wGroup 1] 5 1
    (by decide) (by decide) (by decide)).2.2.2.2 (by decide)

/-! ## Helper lemmas about the normalizer -/

theorem getActivityType_mem_enum (t : String) :
    getActivityType t ∈ activityTypeEnum := by
  unfold getActivityType
  repeat' split
  all_goals simp [activityTypeEnum]

theorem getActivityType_unrecognized {t : String} (h : t ∉ recognizedEventKinds) :
    getActivityType t = "activity" := by
  simp only [recognizedEventKinds, List.mem_cons, List.not_mem_nil, or_false,
    not_or] at h
  obtain ⟨h1, h2, h3, h4, h5, h6, h7, h8⟩ := h
  simp [getActivityType, h1, h2, h3, h4, h5, h6, h7, h8]

theorem getActivityType_ne_commit {t : String} (h : t ≠ "PushEvent") :
    getActivityType t ≠ "commit" := by
  unfold getActivityType
  rw [if_neg h]
  repeat' split
  all_goals decide

theorem eventActivity_push {e : GitHubEvent} (h : e.type = "PushEvent") :
    eventActivity e = none := by
  simp [eventActivity, h]

theorem eventActivity_type {e : GitHubEvent} {a : GitHubActivity}
    (h : eventActivity e = some a) : a.activityType = getActivityType e.type := by
  by_cases hp : e.type = "PushEvent"
  · rw [eventActivity_push hp] at h
    cases h
  · simp only [eventActivity, hp, if_false, Option.some.injEq] at h
    rw [← h]

theorem eventActivity_unrecognized {e : GitHubEvent}
    (h : e.type ∉ recognizedEventKinds) :
    eventActivity e = some
      { date := e.created_at, repository := e.repo.name, activityType := "activity"
      , count := 1, url := "https://github.com/" ++ e.repo.name, githubID := e.id } := by
  have hmem := h
  simp only [recognizedEventKinds, List.mem_cons, List.not_mem_nil, or_false,
    not_or] at hmem
  obtain ⟨h1, h2, h3, h4, h5, h6, h7, h8⟩ := hmem
  simp [eventActivity, h1, h2, h3, getActivityType_unrecognized h]

/-! ## C5 — unrecognized event kinds map to `activity` and are kept -/

/-- C5: an event whose kind is not one of the eight recognized kinds is
classified as `activity` and still yields an `ActivityRecord` (it is
never dropped), and every record the event conversion produces carries an
`activityType` from the fixed enumeration. -/
theorem unknown_event_kind_classified_activity (events : List GitHubEvent) :
    (∀ t, t ∉ recognizedEventKinds → getActivityType t = "activity")
    ∧ (∀ e ∈ events, e.type ∉ recognizedEventKinds →
        ({ date := e.created_at, repository := e.repo.name
         , activityType := "activity", count := 1
         , url := "https://github.com/" ++ e.repo.name
         , githubID := e.id } : GitHubActivity) ∈ convertEventsToActivity events)
    ∧ (∀ a ∈ convertEventsToActivity events, a.activityType ∈ activityTypeEnum) := by
  refine ⟨fun t ht => getActivityType_unrecognized ht, ?_, ?_⟩
  · intro e he ht
    exact List.mem_filterMap.mpr ⟨e, he, eventActivity_unrecognized ht⟩
  · intro a ha
    obtain ⟨e, _, hsome⟩ := List.mem_filterMap.mp ha
    rw [eventActivity_type hsome]
    exact getActivityType_mem_enum e.type

/-- Witness for C5: a concrete `SponsorshipEvent` is stored as an
`activity` record. -/
theorem unknown_event_kind_classified_activity_witness :
    ({ date := 5, repository := "kristofer/RecentRepos", activityType := "activity"
     , count := 1, url := "https://github.com/kristofer/RecentRepos"
     , githubID := "9" } : GitHubActivity) ∈ convertEventsToActivity [wEvent] :=
  (unknown_event_kind_classified_activity [wEvent]).2.1 wEvent
    (List.mem_singleton.mpr rfl) (by decide)

/-! ## C7 — push-shaped generic events are dropped entirely -/

/-- C7: the generic-event conversion produces zero records from push
events (a list of only push events converts to nothing, and the output
has exactly one record per non-push event), no event-derived record is a
commit record, and commits come solely from the per-commit conversion —
one `commit` record per fetched commit. -/
theorem push_events_dropped (events : List GitHubEvent) :
    convertEventsToActivity (events.filter (fun e => e.type = "PushEvent")) = []
    ∧ (convertEventsToActivity events).length
        = (events.filter (fun e => e.type ≠ "PushEvent")).length
    ∧ (∀ a ∈ convertEventsToActivity events, a.activityType ≠ "commit")
    ∧ (∀ (commits : List GitHubCommit) (repoName username : String),
        (convertCommitsToActivity commits repoName username).length = commits.length
        ∧ ∀ a ∈ convertCommitsToActivity commits repoName username,
            a.activityType = "commit") := by
  refine ⟨?_, ?_, ?_, ?_⟩
  · induction events with
    | nil => rfl
    | cons e rest ih =>
      by_cases hp : e.type = "PushEvent"
      · simpa [convertEventsToActivity, List.filter_cons, hp, eventActivity_push hp]
          using ih
      · simpa [convertEventsToActivity, List.filter_cons, hp] using ih
  · induction events with
    | nil => rfl
    | cons e rest ih =>
      by_cases hp : e.type = "PushEvent"
      · simpa [convertEventsToActivity, List.filter_cons, List.filterMap_cons, hp,
          eventActivity_push hp] using ih
      · have hsome : ∃ a, eventActivity e = some a := by
          simp only [eventActivity, hp, if_false]
          exact ⟨_, rfl⟩
        obtain ⟨a, ha⟩ := hsome
        simpa [convertEventsToActivity, List.filter_cons, List.filterMap_cons, hp,
          ha] using ih
  · intro a ha
    obtain ⟨e, _, hsome⟩ := List.mem_filterMap.mp ha
    have hp : e.type ≠ "PushEvent" := by
      intro hp
      rw [eventActivity_push hp] at hsome
      cases hsome
    rw [eventActivity_type hsome]
    exact getActivityType_ne_commit hp
  · intro commits repoName username
    constructor
    · simp [convertCommitsToActivity]
    · intro a ha
      obtain ⟨c, _, hc⟩ := List.mem_map.mp ha
      rw [← hc]

/-- Witness for C7: the record produced for a concrete non-push event is
not a commit record, and one concrete fetched commit yields exactly one
commit record. -/
theorem push_events_dropped_witness :
    ({ date := 5, repository := "kristofer/RecentRepos", activityType := "activity"
     , count := 1, url := "https://github.com/kristofer/RecentRepos"
     , githubID := "9" } : GitHubActivity).activityType ≠ "commit"
    ∧ (convertCommitsToActivity [wCommitA] "alpha" "u").length = 1 :=
  ⟨(push_events_dropped [wEvent]).2.2.1 _ (by decide),
   ((push_events_dropped []).2.2.2 [wCommitA] "alpha" "u").1⟩

/-! ## Helper lemmas about the page loops -/

theorem fetchUserReposLoop_pagesOf :
    ∀ (fuel : Nat) (M : List GitHubRepo) (pages : Nat → HttpResp GitHubRepo)
      (p : Nat) (acc : List GitHubRepo),
      M.length + 1 ≤ fuel →
      (∀ q, pages (p + q) = ⟨200, (M.drop (q * 100)).take 100⟩) →
      fetchUserReposLoop pages fuel p acc = some (.ok (acc ++ M)) := by
  intro fuel
  induction fuel with
  | zero => intro M pages p acc hfuel _; omega
  | succ fuel ih =>
    intro M pages p acc hfuel hpages
    have h0 : pages p = ⟨200, M.take 100⟩ := by simpa using hpages 0
    by_cases hM : M = []
    · subst hM
      simp [fetchUserReposLoop, h0]
    · by_cases hlen : M.length < 100
      · have htake : M.take 100 = M := List.take_of_length_le (by omega)
        have hne : M.isEmpty = false := by
          simp [List.isEmpty_iff, hM]
        simp [fetchUserReposLoop, h0, htake, hne, hlen, hM]
      · have hlen100 : (M.take 100).length = 100 := by
          rw [List.length_take]; omega
        have hne : (M.take 100).isEmpty = false := by
          simp [List.isEmpty_iff, List.take_eq_nil_iff, hM]
        have hrec : fetchUserReposLoop pages fuel (p + 1) (acc ++ M.take 100)
            = some (.ok ((acc ++ M.take 100) ++ M.drop 100)) := by
          apply ih
          · rw [List.length_drop]; omega
          · intro q
            have := hpages (1 + q)
            rw [List.drop_drop]
            rw [show p + (1 + q) = p + 1 + q by omega] at this
            rw [this]
            congr 2
            rw [Nat.add_mul, Nat.one_mul]
        simp only [fetchUserReposLoop, h0, hne, hlen100]
        norm_num
        rw [hrec, List.append_assoc, List.take_append_drop]

theorem fetchRepoCommitsLoop_pagesOf :
    ∀ (fuel : Nat) (repoName : String) (M : List GitHubCommit)
      (pages : Nat → HttpResp GitHubCommit) (p : Nat) (acc : List GitHubCommit),
      M.length + 1 ≤ fuel →
      (∀ q, pages (p + q) = ⟨200, (M.drop (q * 100)).take 100⟩) →
      fetchRepoCommitsLoop repoName pages fuel p acc = some (.ok (acc ++ M)) := by
  intro fuel
  induction fuel with
  | zero => intro repoName M pages p acc hfuel _; omega
  | succ fuel ih =>
    intro repoName M pages p acc hfuel hpages
    have h0 : pages p = ⟨200, M.take 100⟩ := by simpa using hpages 0
    by_cases hM : M = []
    · subst hM
      simp [fetchRepoCommitsLoop, h0]
    · by_cases hlen : M.length < 100
      · have htake : M.take 100 = M := List.take_of_length_le (by omega)
        have hne : M.isEmpty = false := by
          simp [List.isEmpty_iff, hM]
        simp [fetchRepoCommitsLoop, h0, htake, hne, hlen, hM]
      · have hlen100 : (M.take 100).length = 100 := by
          rw [List.length_take]; omega
        have hne : (M.take 100).isEmpty = false := by
          simp [List.isEmpty_iff, List.take_eq_nil_iff, hM]
        have hrec : fetchRepoCommitsLoop repoName pages fuel (p + 1) (acc ++ M.take 100)
            = some (.ok ((acc ++ M.take 100) ++ M.drop 100)) := by
          apply ih
          · rw [List.length_drop]; omega
          · intro q
            have := hpages (1 + q)
            rw [List.drop_drop]
            rw [show p + (1 + q) = p + 1 + q by omega] at this
            rw [this]
            congr 2
            rw [Nat.add_mul, Nat.one_mul]
        simp only [fetchRepoCommitsLoop, h0, hne, hlen100]
        norm_num
        rw [hrec, List.append_assoc, List.take_append_drop]

theorem fetchUserRepos_pagesOf (L : List GitHubRepo) (fuel : Nat)
    (hfuel : L.length + 1 ≤ fuel) :
    fetchUserRepos (pagesOf 100 L) fuel = some (.ok L) := by
  have := fetchUserReposLoop_pagesOf fuel L (pagesOf 100 L) 1 [] hfuel
    (fun q => by simp [pagesOf])
  simpa [fetchUserRepos] using this

theorem fetchRepoCommits_pagesOf (username repoName : String)
    (L : List GitHubCommit) (fuel : Nat) (hfuel : L.length + 1 ≤ fuel) :
    fetchRepoCommits username repoName (pagesOf 100 L) fuel
      = some (.ok (convertCommitsToActivity L repoName username)) := by
  have := fetchRepoCommitsLoop_pagesOf fuel repoName L (pagesOf 100 L) 1 [] hfuel
    (fun q => by simp [pagesOf])
  simp [fetchRepoCommits, this, Except.map]

theorem fetchRepoCommits_409 (username repoName : String)
    (pages : Nat → HttpResp GitHubCommit) (fuel : Nat)
    (hfuel : 1 ≤ fuel) (h409 : (pages 1).status = 409) :
    fetchRepoCommits username repoName pages fuel = some (.ok []) := by
  obtain ⟨fuel, rfl⟩ : ∃ k, fuel = k + 1 := ⟨fuel - 1, by omega⟩
  simp [fetchRepoCommits, fetchRepoCommitsLoop, h409, Except.map, convertCommitsToActivity]

theorem fetchRepoCommits_failStatus (username repoName : String)
    (pages : Nat → HttpResp GitHubCommit) (fuel : Nat)
    (hfuel : 1 ≤ fuel) (h409 : (pages 1).status ≠ 409) (h200 : (pages 1).status ≠ 200) :
    ∃ e, fetchRepoCommits username repoName pages fuel = some (.error e) := by
  obtain ⟨fuel, rfl⟩ : ∃ k, fuel = k + 1 := ⟨fuel - 1, by omega⟩
  refine ⟨"GitHub API returned status: " ++ toString (pages 1).status ++
    " for repo " ++ repoName, ?_⟩
  simp [fetchRepoCommits, fetchRepoCommitsLoop, h409, h200, Except.map]

/-! ## C6 — which listing operations actually paginate -/

/-- Counterexample for C6: against a well-behaved server holding 13 pull
requests served in pages of the 10 requested per page, the pull-request
listing returns only the first 10 items — it never requests a second
page, so not every upstream collection is fully retrieved. -/
theorem pull_request_listing_not_paginated :
    fetchRepoPullRequests (pagesOf 10 c6PRs) = .ok (c6PRs.take 10)
    ∧ c6PRs.take 10 ≠ c6PRs
    ∧ (c6PRs.take 10).length = 10 ∧ c6PRs.length = 13 := by decide

/-- C6 (amended): the repository listing and the per-repository commit
listing fetch pages of fixed size 100 until a short or empty page and so
retrieve collections of any size completely; the pull-request listing and
the PR-comment listing issue exactly one request and return just that
first page's body (empty on a non-200 status). -/
theorem pagination_loops_amended :
    (∀ (L : List GitHubRepo) (fuel : Nat), L.length + 1 ≤ fuel →
      fetchUserRepos (pagesOf 100 L) fuel = some (.ok L))
    ∧ (∀ (username repoName : String) (L : List GitHubCommit) (fuel : Nat),
        L.length + 1 ≤ fuel →
        fetchRepoCommits username repoName (pagesOf 100 L) fuel
          = some (.ok (convertCommitsToActivity L repoName username)))
    ∧ (∀ pages : Nat → HttpResp GitHubPullRequest,
        fetchRepoPullRequests pages
          = .ok (if (pages 1).status = 200 then (pages 1).body else []))
    ∧ (∀ pages : Nat → HttpResp GitHubIssueComment,
        fetchPRIssueComments pages
          = .ok (if (pages 1).status = 200 then (pages 1).body else [])) := by
  refine ⟨fetchUserRepos_pagesOf, fetchRepoCommits_pagesOf, ?_, ?_⟩
  · intro pages
    by_cases h : (pages 1).status = 200 <;> simp [fetchRepoPullRequests, h]
  · intro pages
    by_cases h : (pages 1).status = 200 <;> simp [fetchPRIssueComments, h]

/-- Witness for C6 (amended): a one-repository collection is retrieved
completely with fuel 2. -/
theorem pagination_loops_amended_witness :
    fetchUserRepos (pagesOf 100 [wRepoA]) 2 = some (.ok [wRepoA]) :=
  pagination_loops_amended.1 [wRepoA] 2 (by decide)

/-! ## C9 — credential-less mode -/

/-- Counterexample for C9: two invocations of the credential-less
activity fetch at different clock readings return different datasets —
`getSampleData` computes its dates relative to `time.Now()`, so the
sample dataset is not invariant across invocations. -/
theorem sample_data_clock_dependent :
    FetchUserActivity "" "kristofer" (86400 * 20) 0 noUpstream 1
      ≠ FetchUserActivity "" "kristofer" (86400 * 21) 0 noUpstream 1 := by decide

/-- C9 (amended): with no credential configured, both fetch operations
return the built-in sample dataset computed from the current clock,
without consulting the upstream at all: the result is independent of the
upstream, the cutoff and the fuel, and any two invocations at the same
clock reading return the same dataset (invocations at different clock
readings differ only in the dates, which are relative to the clock). -/
theorem sample_mode_deterministic (username : String)
    (now sixMonthsAgo sixMonthsAgo' fuel fuel' : Nat) (up up' : Upstream) :
    FetchUserActivity "" username now sixMonthsAgo up fuel
      = some (.ok (getSampleData now))
    ∧ FetchUserActivity "" username now sixMonthsAgo up fuel
        = FetchUserActivity "" username now sixMonthsAgo' up' fuel'
    ∧ FetchPRComments "" username now sixMonthsAgo up fuel
        = some (.ok (getSamplePRComments now))
    ∧ FetchPRComments "" username now sixMonthsAgo up fuel
        = FetchPRComments "" username now sixMonthsAgo' up' fuel' := by
  refine ⟨?_, ?_, ?_, ?_⟩ <;> simp [FetchUserActivity, FetchPRComments]

/-! ## C10 — a failed events fetch is silently discarded -/

/-- C10: with a configured credential, when the recent-events fetch fails
the refresh still succeeds and returns exactly the commit-derived
records: the events error is discarded and no event-derived record is
produced. -/
theorem events_failure_silent (token username : String)
    (now sixMonthsAgo fuel : Nat) (up : Upstream)
    (repos : List GitHubRepo) (commitActs : List GitHubActivity)
    (ht : token ≠ "")
    (hrepos : fetchUserRepos up.repoPages fuel = some (.ok repos))
    (hcollect : collectRepoCommits username up fuel repos [] = some commitActs)
    (hev : up.eventsResp.status ≠ 200) :
    FetchUserActivity token username now sixMonthsAgo up fuel
      = some (.ok commitActs) := by
  simp [FetchUserActivity, ht, hrepos, hcollect, fetchRecentEvents, hev]

/-- Witness for C10: one repository with one commit, events endpoint
answering 500 — the fetch succeeds with just the commit record. -/
theorem events_failure_silent_witness :
    FetchUserActivity "t" "u" 0 0 c10Upstream 2
      = some (.ok [{ date := 86400 * 100, repository := "u/alpha"
                   , activityType := "commit", count := 1
                   , url := "urlA", githubID := "sha-a" }]) :=
  events_failure_silent "t" "u" 0 0 2 c10Upstream [wRepoA]
    [{ date := 86400 * 100, repository := "u/alpha", activityType := "commit"
     , count := 1, url := "urlA", githubID := "sha-a" }]
    (by decide) (by decide) (by decide) (by decide)

/-! ## Helper lemmas about the three-repository scenario -/

theorem scenarioUpstream_repos (r1 r2 r3 : GitHubRepo) (C1 C3 : List GitHubCommit)
    (st2 fuel : Nat) (hfuel : 4 ≤ fuel) :
    fetchUserRepos (scenarioUpstream r1 r2 r3 C1 C3 st2).repoPages fuel
      = some (.ok [r1, r2, r3]) := by
  have h := fetchUserRepos_pagesOf [r1, r2, r3] fuel (by simpa using hfuel)
  simpa [scenarioUpstream] using h

theorem scenario_collect (username : String) (r1 r2 r3 : GitHubRepo)
    (C1 C3 : List GitHubCommit) (st2 fuel : Nat)
    (h21 : r2.name ≠ r1.name) (h31 : r3.name ≠ r1.name) (h32 : r3.name ≠ r2.name)
    (hf1 : C1.length + 1 ≤ fuel) (hf3 : C3.length + 1 ≤ fuel)
    (hst : st2 = 409 ∨ (st2 ≠ 409 ∧ st2 ≠ 200)) :
    collectRepoCommits username (scenarioUpstream r1 r2 r3 C1 C3 st2) fuel
        [r1, r2, r3] []
      = some (convertCommitsToActivity C1 r1.name username
          ++ convertCommitsToActivity C3 r3.name username) := by
  have hp1 : (scenarioUpstream r1 r2 r3 C1 C3 st2).commitPages r1.name
      = pagesOf 100 C1 := by simp [scenarioUpstream]
  have hp2 : (scenarioUpstream r1 r2 r3 C1 C3 st2).commitPages r2.name
      = (fun _ => ⟨st2, []⟩) := by simp [scenarioUpstream, h21]
  have hp3 : (scenarioUpstream r1 r2 r3 C1 C3 st2).commitPages r3.name
      = pagesOf 100 C3 := by simp [scenarioUpstream, h31, h32]
  have hc1 : fetchRepoCommits username r1.name
      ((scenarioUpstream r1 r2 r3 C1 C3 st2).commitPages r1.name) fuel
      = some (.ok (convertCommitsToActivity C1 r1.name username)) := by
    rw [hp1]; exact fetchRepoCommits_pagesOf username r1.name C1 fuel hf1
  have hc3 : fetchRepoCommits username r3.name
      ((scenarioUpstream r1 r2 r3 C1 C3 st2).commitPages r3.name) fuel
      = some (.ok (convertCommitsToActivity C3 r3.name username)) := by
    rw [hp3]; exact fetchRepoCommits_pagesOf username r3.name C3 fuel hf3
  rcases hst with h409 | ⟨hn409, hn200⟩
  · have hc2 : fetchRepoCommits username r2.name
        ((scenarioUpstream r1 r2 r3 C1 C3 st2).commitPages r2.name) fuel
        = some (.ok []) := by
      apply fetchRepoCommits_409 username r2.name _ fuel (by omega)
      rw [hp2, h409]
    simp [collectRepoCommits, hc1, hc2, hc3]
  · obtain ⟨e, hc2⟩ := fetchRepoCommits_failStatus username r2.name
      ((scenarioUpstream r1 r2 r3 C1 C3 st2).commitPages r2.name) fuel (by omega)
      (by rw [hp2]; exact hn409) (by rw [hp2]; exact hn200)
    simp [collectRepoCommits, hc1, hc2, hc3]

theorem scenario_FetchUserActivity (token username : String)
    (now sixMonthsAgo fuel : Nat) (r1 r2 r3 : GitHubRepo)
    (C1 C3 : List GitHubCommit) (st2 : Nat)
    (ht : token ≠ "")
    (h21 : r2.name ≠ r1.name) (h31 : r3.name ≠ r1.name) (h32 : r3.name ≠ r2.name)
    (hf1 : C1.length + 4 ≤ fuel) (hf3 : C3.length + 4 ≤ fuel)
    (hst : st2 = 409 ∨ (st2 ≠ 409 ∧ st2 ≠ 200)) :
    FetchUserActivity token username now sixMonthsAgo
        (scenarioUpstream r1 r2 r3 C1 C3 st2) fuel
      = some (.ok (convertCommitsToActivity C1 r1.name username
          ++ convertCommitsToActivity C3 r3.name username)) := by
  have hrepos := scenarioUpstream_repos r1 r2 r3 C1 C3 st2 fuel (by omega)
  have hcol := scenario_collect username r1 r2 r3 C1 C3 st2 fuel h21 h31 h32
    (by omega) (by omega) hst
  have hev : (scenarioUpstream r1 r2 r3 C1 C3 st2).eventsResp = ⟨404, []⟩ := rfl
  simp only [FetchUserActivity, ht, if_false, hrepos, hcol]
  simp [fetchRecentEvents, hev]

theorem scenario_FetchPRComments (token username : String)
    (now sixMonthsAgo fuel : Nat) (r1 r2 r3 : GitHubRepo)
    (C1 C3 : List GitHubCommit) (st2 : Nat)
    (ht : token ≠ "") (hfuel : 4 ≤ fuel) :
    FetchPRComments token username now sixMonthsAgo
        (scenarioUpstream r1 r2 r3 C1 C3 st2) fuel = some (.ok []) := by
  have hrepos := scenarioUpstream_repos r1 r2 r3 C1 C3 st2 fuel hfuel
  simp only [FetchPRComments, ht, if_false, hrepos]
  simp [scenarioUpstream, fetchRepoPullRequests, collectPRCommentsForRepo]

theorem refresh_stores_activities (token username : String)
    (now sixMonthsAgo fuel : Nat) (up : Upstream) (db : DB)
    (acts : List GitHubActivity) (rc : Except String (List PRComment))
    (hFA : FetchUserActivity token username now sixMonthsAgo up fuel
      = some (.ok acts))
    (hPRC : FetchPRComments token username now sixMonthsAgo up fuel = some rc) :
    ∃ dbr : DB,
      fetchGitHubActivity token username now sixMonthsAgo up fuel db
        = some (.ok dbr)
      ∧ dbr.github_activity
          = acts.foldl insertOrIgnoreActivity db.github_activity := by
  cases rc with
  | error e =>
    refine ⟨⟨acts.foldl insertOrIgnoreActivity db.github_activity,
      db.pr_comments⟩, ?_, rfl⟩
    simp [fetchGitHubActivity, hFA, hPRC]
  | ok cs =>
    refine ⟨⟨acts.foldl insertOrIgnoreActivity db.github_activity,
      cs.foldl insertOrReplacePRComment (purgeOldPRComments now db.pr_comments)⟩,
      ?_, rfl⟩
    simp [fetchGitHubActivity, hFA, hPRC]

/-! ## C4 — per-repository failure isolation -/

/-- C4: in a refresh with a configured credential, a non-success status
on one repository's commits fetch aborts only that repository — the
other repositories' activities are still collected and stored — while a
failure of the top-level repository listing aborts the whole refresh
with an error. -/
theorem per_repo_failure_isolation (token username : String)
    (now sixMonthsAgo fuel : Nat) (r1 r2 r3 : GitHubRepo)
    (C1 C3 : List GitHubCommit)
    (ht : token ≠ "")
    (h21 : r2.name ≠ r1.name) (h31 : r3.name ≠ r1.name) (h32 : r3.name ≠ r2.name)
    (hf1 : C1.length + 4 ≤ fuel) (hf3 : C3.length + 4 ≤ fuel) :
    FetchUserActivity token username now sixMonthsAgo
        (scenarioUpstream r1 r2 r3 C1 C3 500) fuel
      = some (.ok (convertCommitsToActivity C1 r1.name username
          ++ convertCommitsToActivity C3 r3.name username))
    ∧ (∀ (up : Upstream) (fuel₂ : Nat) (e : String),
        fetchUserRepos up.repoPages fuel₂ = some (.error e) →
        FetchUserActivity token username now sixMonthsAgo up fuel₂
          = some (.error ("failed to fetch user repos: " ++ e)))
    ∧ (∀ db : DB, ∃ dbr : DB,
        fetchGitHubActivity token username now sixMonthsAgo
            (scenarioUpstream r1 r2 r3 C1 C3 500) fuel db = some (.ok dbr)
        ∧ ∀ a ∈ convertCommitsToActivity C1 r1.name username
            ++ convertCommitsToActivity C3 r3.name username,
            keyPresent dbr.github_activity (activityKey (activityRowOf a)) = true) := by
  have hFA := scenario_FetchUserActivity token username now sixMonthsAgo fuel
    r1 r2 r3 C1 C3 500 ht h21 h31 h32 hf1 hf3 (Or.inr (by omega))
  refine ⟨hFA, ?_, ?_⟩
  · intro up fuel₂ e he
    simp [FetchUserActivity, ht, he]
  · intro db
    obtain ⟨dbr, hdbr, hga⟩ := refresh_stores_activities token username now
      sixMonthsAgo fuel _ db _ (.ok [])
      hFA (scenario_FetchPRComments token username now sixMonthsAgo fuel
        r1 r2 r3 C1 C3 500 ht (by omega))
    refine ⟨dbr, hdbr, ?_⟩
    intro a ha
    rw [hga]
    exact foldl_insert_present _ _ a ha

/-- Witness for C4: repositories alpha/beta/gamma where beta's commit
fetch answers 500 — the fetch succeeds with alpha's and gamma's commits. -/
theorem per_repo_failure_isolation_witness :
    FetchUserActivity "t" "u" 0 0
        (scenarioUpstream wRepoA wRepoB wRepoC [wCommitA] [wCommitC] 500) 5
      = some (.ok (convertCommitsToActivity [wCommitA] wRepoA.name "u"
          ++ convertCommitsToActivity [wCommitC] wRepoC.name "u")) :=
  (per_repo_failure_isolation "t" "u" 0 0 5 wRepoA wRepoB wRepoC
    [wCommitA] [wCommitC] (by decide) (by decide) (by decide) (by decide)
    (by decide) (by decide)).1

/-! ## C8 — an empty repository is not an error -/

/-- C8: the "repository has no commits yet" status (HTTP 409) makes the
per-repository commits fetch return an empty result with no error, and a
refresh over three repositories where one is empty completes
successfully, storing the activity of the two non-empty repositories. -/
theorem empty_repository_not_error (token username : String)
    (now sixMonthsAgo fuel : Nat) (r1 r2 r3 : GitHubRepo)
    (C1 C3 : List GitHubCommit)
    (ht : token ≠ "")
    (h21 : r2.name ≠ r1.name) (h31 : r3.name ≠ r1.name) (h32 : r3.name ≠ r2.name)
    (hf1 : C1.length + 4 ≤ fuel) (hf3 : C3.length + 4 ≤ fuel) :
    (∀ (user₂ repo₂ : String) (pages : Nat → HttpResp GitHubCommit) (fuel₂ : Nat),
        1 ≤ fuel₂ → (pages 1).status = 409 →
        fetchRepoCommits user₂ repo₂ pages fuel₂ = some (.ok []))
    ∧ FetchUserActivity token username now sixMonthsAgo
        (scenarioUpstream r1 r2 r3 C1 C3 409) fuel
      = some (.ok (convertCommitsToActivity C1 r1.name username
          ++ convertCommitsToActivity C3 r3.name username))
    ∧ (∀ db : DB, ∃ dbr : DB,
        fetchGitHubActivity token username now sixMonthsAgo
            (scenarioUpstream r1 r2 r3 C1 C3 409) fuel db = some (.ok dbr)
        ∧ ∀ a ∈ convertCommitsToActivity C1 r1.name username
            ++ convertCommitsToActivity C3 r3.name username,
            keyPresent dbr.github_activity (activityKey (activityRowOf a)) = true) := by
  have hFA := scenario_FetchUserActivity token username now sixMonthsAgo fuel
    r1 r2 r3 C1 C3 409 ht h21 h31 h32 hf1 hf3 (Or.inl rfl)
  refine ⟨?_, hFA, ?_⟩
  · intro user₂ repo₂ pages fuel₂ hfuel₂ h409
    exact fetchRepoCommits_409 user₂ repo₂ pages fuel₂ hfuel₂ h409
  · intro db
    obtain ⟨dbr, hdbr, hga⟩ := refresh_stores_activities token username now
      sixMonthsAgo fuel _ db _ (.ok [])
      hFA (scenario_FetchPRComments token username now sixMonthsAgo fuel
        r1 r2 r3 C1 C3 409 ht (by omega))
    refine ⟨dbr, hdbr, ?_⟩
    intro a ha
    rw [hga]
    exact foldl_insert_present _ _ a ha

/-- Witness for C8: beta's commit endpoint answers 409 while alpha and
gamma hold one commit each; the fetch succeeds with those two commits,
and the 409 fetch itself returns an empty result without error. -/
theorem empty_repository_not_error_witness :
    fetchRepoCommits "u" "beta" (fun _ => ⟨409, []⟩) 1 = some (.ok []) :=
  (empty_repository_not_error "t" "u" 0 0 5 wRepoA wRepoB wRepoC
    [wCommitA] [wCommitC] (by decide) (by decide) (by decide) (by decide)
    (by decide) (by decide)).1 "u" "beta" (fun _ => ⟨409, []⟩) 1
    (by decide) (by decide)

/-! ## C2 — re-fetching a PR comment does not replace the stored row -/

/-- C2 (observed code behaviour): two refreshes against an unchanged
upstream holding one PR comment leave TWO `pr_comments` rows with the
same (repository, PR number, comment body).  The `INSERT OR REPLACE`
statement lists no column of any uniqueness constraint — the table's
only one is the autoincrement `id`, which the statement leaves unset —
so it can never conflict and appends a fresh row on every refresh
instead of replacing the stored one. -/
theorem pr_comments_duplicate_on_refetch :
    ((getOkDB (fetchGitHubActivity "t" "kristofer" (86400 * 365) (86400 * 182)
        c2Upstream 2
        (getOkDB (fetchGitHubActivity "t" "kristofer" (86400 * 365) (86400 * 182)
          c2Upstream 2 emptyDB)))).pr_comments.map
      (fun r => (r.repository, r.pr_number, r.body)))
    = [("kristofer/RecentRepos", 1, "This looks great!"),
       ("kristofer/RecentRepos", 1, "This looks great!")]
    ∧ ((getOkDB (fetchGitHubActivity "t" "kristofer" (86400 * 365) (86400 * 182)
        c2Upstream 2
        (getOkDB (fetchGitHubActivity "t" "kristofer" (86400 * 365) (86400 * 182)
          c2Upstream 2 emptyDB)))).pr_comments.length) = 2 := by decide

end RecentRepos
